import Mathlib

/-!
Verification of the Pacman maze-game core (`src/pacman.py`) against its
natural-language specification.

The Python source is shallowly embedded: every stateful method of the game
(`RenderGame.handle_mode_switch`, `Hero.handle_cookies`, `Hero.handle_ghosts`,
`RenderGame.kill_pacman`, the movement resolvers of `Hero` and `Ghost`,
`Ghost.calculate_direction_to_next_target`, `RenderGame.get_hero_position`,
`Ghost.request_path_to_player`, `Pathfinder.get_path`) becomes a pure Lean
function over an explicit state record.  Python object identity (the `in` /
`remove` checks on the renderer's lists) is modelled by a numeric object id;
Python exceptions (attribute access on `None`, list index out of range)
become `Except` / `Option` results.
-/

namespace Pacman

/-- Movement directions of the game (`Directions` enum in the source). -/
inductive Directions
  | Nothing
  | Left
  | Up
  | Down
  | Right
deriving DecidableEq

/-- Ghost behavior modes (`GhostMoves` enum in the source). -/
inductive GhostMoves
  | Chase
  | Scatter
deriving DecidableEq

/-- An axis-aligned rectangle, as `pygame.Rect(x, y, w, h)`. -/
structure Rect where
  x : Int
  y : Int
  w : Int
  h : Int
deriving DecidableEq

/-- `pygame.Rect.colliderect`: strict overlap of two rectangles (rectangles
that merely share an edge do not collide).  All rectangles in this program
have positive width and height. -/
def colliderect (a b : Rect) : Bool :=
  decide (a.x < b.x + b.w) && decide (b.x < a.x + a.w) &&
  decide (a.y < b.y + b.h) && decide (b.y < a.y + a.h)

/-! Section: Mode switching (`RenderGame.handle_mode_switch`) -/

/-- The fixed phase timing table `RenderGame._modes`:
(scatter seconds, chase seconds) per phase. -/
def modes : List (Nat × Nat) := [(7, 20), (7, 20), (5, 20), (5, 999999)]

/-- The slice of `RenderGame` state involved in mode switching. -/
structure ModeState where
  currMode : GhostMoves
  currentPhase : Nat
  modeTimerMs : Nat
deriving DecidableEq

/-- `RenderGame.set_current_mode`. -/
def set_current_mode (m : GhostMoves) (s : ModeState) : ModeState :=
  { s with currMode := m }

/-- `RenderGame.handle_mode_switch`: reads the timing entry of the current
phase, switches the mode (advancing the phase on the Chase to Scatter edge),
and rearms the mode timer with the timing of the new mode taken from the
entry read at function entry.  `none` models the `IndexError` raised when
the phase index runs past the table. -/
def handle_mode_switch (s : ModeState) : Option ModeState :=
  match modes[s.currentPhase]? with
  | none => none
  | some curr_phase_timings =>
    let scatter_timing := curr_phase_timings.1
    let chase_timing := curr_phase_timings.2
    let s :=
      if s.currMode = GhostMoves.Chase then
        set_current_mode GhostMoves.Scatter { s with currentPhase := s.currentPhase + 1 }
      else
        set_current_mode GhostMoves.Chase s
    let used_timing :=
      if s.currMode = GhostMoves.Scatter then scatter_timing else chase_timing
    some { s with modeTimerMs := used_timing * 1000 }

/-! Section: Ghost direction derivation (`Ghost.calculate_direction_to_next_target`) -/

/-- Which path re-request, if any, a direction recomputation triggers:
`toPlayer` is `Ghost.request_path_to_player`, `randomPath` is
`GameController.request_new_random_path`. -/
inductive PathRequest
  | noRequest
  | toPlayer
  | randomPath
deriving DecidableEq

/-- `Ghost.calculate_direction_to_next_target`: derives a cardinal direction
from the ghost position and its next waypoint, or (when there is no usable
waypoint) issues a path request and yields `Directions.Nothing`. -/
def calculate_direction_to_next_target (mode : GhostMoves) (ability : Bool)
    (pos : Int × Int) (next_target : Option (Int × Int)) : Directions × PathRequest :=
  match next_target with
  | none =>
    (Directions.Nothing,
      if mode = GhostMoves.Chase ∧ ability = false then PathRequest.toPlayer
      else PathRequest.randomPath)
  | some t =>
    let x_diff := t.1 - pos.1
    let y_diff := t.2 - pos.2
    if x_diff = 0 then
      (if y_diff > 0 then Directions.Down else Directions.Up, PathRequest.noRequest)
    else if y_diff = 0 then
      (if x_diff < 0 then Directions.Left else Directions.Right, PathRequest.noRequest)
    else
      (Directions.Nothing,
        if mode = GhostMoves.Chase ∧ ability = false then PathRequest.toPlayer
        else PathRequest.randomPath)

/-! Section: Movement and wall collision (`Movers`, `Hero`, `Ghost`) -/

/-- The movement-relevant state of a `Movers` object: position, size, the
current direction, the buffered direction (latest key press, player only)
and the last direction that produced a successful move. -/
structure Mover where
  x : Int
  y : Int
  size : Int
  current_direction : Directions
  direction_buffer : Directions
  last_working_direction : Directions
deriving DecidableEq

/-- `Movers.wall_collision`: does a bounding box of the mover's size placed
at `pos` overlap any wall rectangle? -/
def wall_collision (walls : List Rect) (size : Int) (pos : Int × Int) : Bool :=
  walls.any (fun wall => colliderect ⟨pos.1, pos.2, size, size⟩ wall)

/-- `Movers.check_collision_in_direction`: the desired one-unit step in a
direction and whether it collides with a wall.  For `Nothing` the source
returns `(False, (0, 0))` without consulting the walls. -/
def check_collision_in_direction (walls : List Rect) (m : Mover) (d : Directions) :
    Bool × (Int × Int) :=
  match d with
  | Directions.Nothing => (false, (0, 0))
  | Directions.Up => (wall_collision walls m.size (m.x, m.y - 1), (m.x, m.y - 1))
  | Directions.Down => (wall_collision walls m.size (m.x, m.y + 1), (m.x, m.y + 1))
  | Directions.Left => (wall_collision walls m.size (m.x - 1, m.y), (m.x - 1, m.y))
  | Directions.Right => (wall_collision walls m.size (m.x + 1, m.y), (m.x + 1, m.y))

/-- `Hero.automatic_move`: take the desired step when it does not collide
(recording the last working direction), otherwise revert the current
direction to the last working one. -/
def hero_automatic_move (walls : List Rect) (m : Mover) (d : Directions) : Mover :=
  let collision_result := check_collision_in_direction walls m d
  if collision_result.1 = false then
    { m with last_working_direction := m.current_direction,
             x := collision_result.2.1, y := collision_result.2.2 }
  else
    { m with current_direction := m.last_working_direction }

/-- The horizontal screen wraparound at the top of `Hero.tick`. -/
def hero_wrap (width : Int) (m : Mover) : Mover :=
  let m := if m.x < 0 then { m with x := width } else m
  if m.x > width then { m with x := 0 } else m

/-- The movement portion of `Hero.tick`: wraparound, record the last
non-colliding position, move by the buffered direction when that step is
free (else by the current direction), then roll back to the recorded
position if the final position overlaps a wall. -/
def hero_move_tick (walls : List Rect) (width : Int) (m : Mover) : Mover :=
  let m := hero_wrap width m
  let last_non_colliding_position := (m.x, m.y)
  let m :=
    if (check_collision_in_direction walls m m.direction_buffer).1 = true then
      hero_automatic_move walls m m.current_direction
    else
      let m' := hero_automatic_move walls m m.direction_buffer
      { m' with current_direction := m'.direction_buffer }
  if wall_collision walls m.size (m.x, m.y) = true then
    { m with x := last_non_colliding_position.1, y := last_non_colliding_position.2 }
  else m

/-- `Ghost.automatic_move`: apply the one-unit step of the given direction
unconditionally — the ghost mover consults no wall geometry at all. -/
def ghost_automatic_move (m : Mover) (d : Directions) : Mover :=
  match d with
  | Directions.Up => { m with y := m.y - 1 }
  | Directions.Down => { m with y := m.y + 1 }
  | Directions.Left => { m with x := m.x - 1 }
  | Directions.Right => { m with x := m.x + 1 }
  | Directions.Nothing => m

/-! Section: Game objects and session state (`RenderGame`, `Hero.handle_cookies`,
`Hero.handle_ghosts`, `RenderGame.kill_pacman`) -/

/-- A static game object (cookie, powerup or ghost) as seen by the collision
handlers: a numeric id standing for Python object identity, plus the data of
its bounding box. -/
structure Obj where
  oid : Nat
  x : Int
  y : Int
  size : Int
deriving DecidableEq

/-- `GameObject.get_shape`: the object's bounding box. -/
def get_shape (o : Obj) : Rect :=
  ⟨o.x, o.y, o.size, o.size⟩

/-- The hero object: identity, position, size, current direction. -/
structure HeroObj where
  oid : Nat
  x : Int
  y : Int
  size : Int
  dir : Directions
deriving DecidableEq

/-- The slice of `RenderGame` state read and written by the collision
handlers.  `gameObjects` is the renderer's `_game_objects` list, kept as the
list of object ids (Python membership and removal are by identity); the
`_cookies`, `_powerups` and `_ghosts` lists keep the full objects.
`abilityTimerMs` is the duration last passed to the empowerment-expiry
`set_timer` call. -/
structure GState where
  lives : Int
  score : Int
  specialAbilityActive : Bool
  wonGame : Bool
  currMode : GhostMoves
  abilityTimerMs : Nat
  gameObjects : List Nat
  cookies : List Obj
  powerups : List Obj
  ghosts : List Obj
  hero : Option HeroObj
deriving DecidableEq

/-- `RenderGame.end_game`: remove the hero from the game-object list (when
present) and clear the hero reference. -/
def end_game (s : GState) : GState :=
  match s.hero with
  | some h => { s with gameObjects := s.gameObjects.erase h.oid, hero := none }
  | none => { s with hero := none }

/-- `RenderGame.kill_pacman`: decrement the lives counter, then reset the
hero to its spawn position `(32, 32)` with direction `Nothing`, ending the
game when the counter reaches exactly zero.  The position reset
dereferences `self._hero`; when the hero reference has already been
cleared, the Python code raises `AttributeError` — modelled as
`Except.error` carrying the state at the moment of the crash (the lives
counter has already been decremented at that point). -/
def kill_pacman (s : GState) : Except GState GState :=
  let s := { s with lives := s.lives - 1 }
  match s.hero with
  | none => Except.error s
  | some h =>
    let s := { s with hero := some { h with x := 32, y := 32, dir := Directions.Nothing } }
    if s.lives = 0 then Except.ok (end_game s) else Except.ok s

/-- The loop body of `Hero.handle_ghosts` over the ghost list: a colliding
ghost still in the game-object list is eaten (removed, +400 points) when
the special ability is active; otherwise, while the game is not yet won,
`kill_pacman` runs. -/
def handle_ghosts_go (selfRect : Rect) : List Obj → GState → Except GState GState
  | [], s => Except.ok s
  | g :: rest, s =>
    if colliderect selfRect (get_shape g) = true ∧ g.oid ∈ s.gameObjects then
      if s.specialAbilityActive = true then
        handle_ghosts_go selfRect rest
          { s with gameObjects := s.gameObjects.erase g.oid, score := s.score + 400 }
      else if s.wonGame = false then
        match kill_pacman s with
        | Except.error e => Except.error e
        | Except.ok s' => handle_ghosts_go selfRect rest s'
      else
        handle_ghosts_go selfRect rest s
    else
      handle_ghosts_go selfRect rest s

/-- `Hero.handle_ghosts`: the hero's bounding box (`selfRect`) is computed
once at entry from the hero object executing the tick, then the ghost list
is traversed. -/
def handle_ghosts (selfRect : Rect) (s : GState) : Except GState GState :=
  handle_ghosts_go selfRect s.ghosts s

/-- Accumulator of the cookie loop in `Hero.handle_cookies`: the
game-object list, the score, and the running `cookie_to_remove` local. -/
structure CAcc where
  go : List Nat
  sc : Int
  ctr : Option Obj
deriving DecidableEq

/-- The first loop of `Hero.handle_cookies`: every colliding cookie still in
the game-object list is removed from it and scored (+10), and the
`cookie_to_remove` local is overwritten with that cookie. -/
def cookie_loop (r : Rect) : List Obj → CAcc → CAcc
  | [], a => a
  | c :: rest, a =>
    if colliderect r (get_shape c) = true ∧ c.oid ∈ a.go then
      cookie_loop r rest ⟨a.go.erase c.oid, a.sc + 10, some c⟩
    else
      cookie_loop r rest a

/-- Accumulator of the powerup loop in `Hero.handle_cookies`: game-object
list, score, special-ability flag, global mode, empowerment timer. -/
structure PAcc where
  go : List Nat
  sc : Int
  ab : Bool
  md : GhostMoves
  tm : Nat
deriving DecidableEq

/-- The second loop of `Hero.handle_cookies`: a colliding powerup still in
the game-object list is, when the special ability is not already active,
removed and scored (+50) and `RenderGame.activate_special_ability` runs
(ability flag set, mode switched to Scatter, 15000 ms expiry timer). -/
def powerup_loop (r : Rect) : List Obj → PAcc → PAcc
  | [], a => a
  | p :: rest, a =>
    if colliderect r (get_shape p) = true ∧ p.oid ∈ a.go then
      if a.ab = true then
        powerup_loop r rest a
      else
        powerup_loop r rest ⟨a.go.erase p.oid, a.sc + 50, true, GhostMoves.Scatter, 15000⟩
    else
      powerup_loop r rest a

/-- `Hero.handle_cookies`: run the cookie loop, remove the single
`cookie_to_remove` (if any) from the cookie list, set the win flag when the
cookie list is empty, then run the powerup loop.  `r` is the hero's
bounding box computed at entry. -/
def handle_cookies (r : Rect) (s : GState) : GState :=
  let ca := cookie_loop r s.cookies ⟨s.gameObjects, s.score, none⟩
  let cookies1 :=
    match ca.ctr with
    | some c => s.cookies.erase c
    | none => s.cookies
  let won1 := s.wonGame || cookies1.isEmpty
  let pa := powerup_loop r s.powerups
    ⟨ca.go, ca.sc, s.specialAbilityActive, s.currMode, s.abilityTimerMs⟩
  { s with gameObjects := pa.go, score := pa.sc, specialAbilityActive := pa.ab,
           currMode := pa.md, abilityTimerMs := pa.tm,
           cookies := cookies1, wonGame := won1 }

/-! Section: Hero position queries and path requests (`RenderGame.get_hero_position`,
`Ghost.request_path_to_player`) -/

/-- `screen_to_maze`: screen coordinates to maze-cell coordinates by
truncating division by the tile size 32 (Python `int(c / 32)` truncates
toward zero). -/
def screen_to_maze (p : Int × Int) : Int × Int :=
  (Int.tdiv p.1 32, Int.tdiv p.2 32)

/-- `maze_to_screen`: maze-cell coordinates to screen coordinates. -/
def maze_to_screen (p : Int × Int) : Int × Int :=
  (p.1 * 32, p.2 * 32)

/-- `RenderGame.get_hero_position`: `(0, 0)` when there is no hero on the
screen, otherwise the hero's position. -/
def get_hero_position (s : GState) : Int × Int :=
  match s.hero with
  | none => (0, 0)
  | some h => (h.x, h.y)

/-! Section: Pathfinder (`Pathfinder`, backed by `tcod.path.AStar`) -/

/-- Is the grid cell at (row, column) inside the cost grid and passable
(nonzero cost entry)? -/
def cellFree (grid : List (List Nat)) (c : Nat × Nat) : Bool :=
  match grid[c.1]? with
  | some row =>
    match row[c.2]? with
    | some v => decide (v ≠ 0)
    | none => false
  | none => false

/-- The 4-directional neighbours of a grid cell, in a fixed order
(up, down, left, right) so that the search is deterministic. -/
def neighborsOf (c : Nat × Nat) : List (Nat × Nat) :=
  (if c.1 > 0 then [(c.1 - 1, c.2)] else []) ++ [(c.1 + 1, c.2)] ++
    (if c.2 > 0 then [(c.1, c.2 - 1)] else []) ++ [(c.1, c.2 + 1)]

/-- Keep the first frontier entry for each cell, dropping later duplicates
within one breadth-first round. -/
def dedupKeys : List ((Nat × Nat) × List (Nat × Nat)) → List (Nat × Nat) →
    List ((Nat × Nat) × List (Nat × Nat))
  | [], _ => []
  | it :: rest, seen =>
    if it.1 ∈ seen then dedupKeys rest seen
    else it :: dedupKeys rest (it.1 :: seen)

/-- Fuelled breadth-first search: each frontier entry carries the reversed
path that reached it; returns the path to the goal (goal included, start
excluded) or `[]` when the fuel runs out with the goal unreached. -/
def bfs (grid : List (List Nat)) (goal : Nat × Nat) :
    Nat → List ((Nat × Nat) × List (Nat × Nat)) → List (Nat × Nat) → List (Nat × Nat)
  | 0, _, _ => []
  | fuel + 1, frontier, visited =>
    match frontier.find? (fun it => it.1 == goal) with
    | some it => it.2.reverse
    | none =>
      let expanded := frontier.flatMap (fun it =>
        (neighborsOf it.1).filterMap (fun n =>
          if cellFree grid n && !(visited.contains n) then some (n, n :: it.2) else none))
      let newFrontier := dedupKeys expanded []
      bfs grid goal fuel newFrontier (visited ++ newFrontier.map (fun it => it.1))

/-- An upper bound on the number of cells of the grid, used as search fuel. -/
def gridFuel (grid : List (List Nat)) : Nat :=
  grid.foldr (fun row acc => row.length + acc) 1

/-- Modelled from the spec: the shortest-path search itself lives in the
external `tcod.path.AStar` library, not in this repository.  Per the spec it
is a deterministic 4-directional unit-cost grid shortest-path search that
returns an empty path when start equals goal or the goal is unreachable;
it is modelled here as a breadth-first search with a fixed deterministic
expansion order.  Cells are (row, column) indices into the cost grid. -/
def get_path_cells (grid : List (List Nat)) (start goal : Nat × Nat) : List (Nat × Nat) :=
  if cellFree grid start then bfs grid goal (gridFuel grid) [(start, [])] [start] else []

/-- The `Pathfinder` object: its immutable cost grid (`tcod.path.AStar` is
initialised once with the grid and queried read-only afterwards). -/
structure Pathfinder where
  cost : List (List Nat)
deriving DecidableEq

/-- `Pathfinder.get_path`: query the search and swap each returned index
pair, as the source's `[(sub[1], sub[0]) for sub in res]` does.  The query
returns the pathfinder state alongside the result to make explicit that a
query leaves the pathfinder unchanged. -/
def Pathfinder.get_path (pf : Pathfinder) (from_x from_y to_x to_y : Nat) :
    List (Nat × Nat) × Pathfinder :=
  let res := get_path_cells pf.cost (from_x, from_y) (to_x, to_y)
  (res.map (fun sub => (sub.2, sub.1)), pf)

/-- `Ghost.request_path_to_player`: query the hero position (screen
coordinates), convert hero and ghost positions to maze cells, ask the
pathfinder for a path between them (passing row before column, hence the
index swap), and convert the result back to screen coordinates.  Returns
the pair of maze cells (ghost cell, target cell) of the issued query
together with the screen-space path handed to `set_new_path`; maze cells
with a negative component are modelled as unreachable (empty path). -/
def request_path_to_player (pf : Pathfinder) (s : GState) (gx gy : Int) :
    ((Int × Int) × (Int × Int)) × List (Int × Int) :=
  let player_position := screen_to_maze (get_hero_position s)
  let curr_maze_coords := screen_to_maze (gx, gy)
  let path :=
    if 0 ≤ curr_maze_coords.1 ∧ 0 ≤ curr_maze_coords.2 ∧
        0 ≤ player_position.1 ∧ 0 ≤ player_position.2 then
      (pf.get_path curr_maze_coords.2.toNat curr_maze_coords.1.toNat
        player_position.2.toNat player_position.1.toNat).1
    else []
  ((curr_maze_coords, player_position),
    path.map (fun item => maze_to_screen (Int.ofNat item.1, Int.ofNat item.2)))

end Pacman

namespace Pacman

/-- C1: counterexample to the claim that the rearmed duration is drawn from
the just-advanced phase entry.  Firing at phase 1 in Chase mode advances the
phase to 2 and switches to Scatter, but rearms the timer with 7000 ms — the
scatter duration of the old phase entry 1 — while phase entry 2 carries
scatter duration 5 s, i.e. 5000 ms. -/
theorem mode_switch_timer_from_old_phase :
    handle_mode_switch ⟨GhostMoves.Chase, 1, 20000⟩ =
      some ⟨GhostMoves.Scatter, 2, 7000⟩ ∧
    modes[2]? = some (5, 20) ∧ (7000 : Nat) ≠ 5 * 1000 := by
  decide

/-- C1 (amended): on a mode-switch timer event, Chase advances the phase by
one and becomes Scatter, anything else becomes Chase without advancing; the
timer is rearmed with the new mode's duration drawn from the phase entry
read at the start of the handler (the pre-advance phase), in milliseconds. -/
theorem handle_mode_switch_spec (s s' : ModeState) (t : Nat × Nat)
    (ht : modes[s.currentPhase]? = some t)
    (h : handle_mode_switch s = some s') :
    (if s.currMode = GhostMoves.Chase then
        s'.currMode = GhostMoves.Scatter ∧ s'.currentPhase = s.currentPhase + 1
      else
        s'.currMode = GhostMoves.Chase ∧ s'.currentPhase = s.currentPhase) ∧
    s'.modeTimerMs =
      (if s'.currMode = GhostMoves.Scatter then t.1 else t.2) * 1000 := by
  unfold handle_mode_switch at h
  rw [ht] at h
  by_cases hc : s.currMode = GhostMoves.Chase
  · simp only [hc, if_pos, set_current_mode] at h
    cases h
    simp [hc]
  · simp only [hc, if_neg, set_current_mode, if_false] at h
    cases h
    simp [hc]

/-- C1 witness: the theorem applied to the initial Chase state at phase 0:
the event switches to Scatter, advances the phase to 1, and rearms with
7 s = 7000 ms. -/
theorem handle_mode_switch_spec_at_start :
    (7000 : Nat) = (if GhostMoves.Scatter = GhostMoves.Scatter then 7 else 20) * 1000 := by
  exact (handle_mode_switch_spec ⟨GhostMoves.Chase, 0, 0⟩
    ⟨GhostMoves.Scatter, 1, 7000⟩ (7, 20) (by decide) (by decide)).2

/-- C3: counterexample to the claim that a waypoint equal to the pursuer
position on both coordinates yields a horizontal direction: the code takes
the vertical branch first and returns `Up`, which is not horizontal. -/
theorem direction_equal_both_is_up :
    calculate_direction_to_next_target GhostMoves.Chase false (0, 0) (some (0, 0)) =
      (Directions.Up, PathRequest.noRequest) ∧
    Directions.Up ≠ Directions.Left ∧ Directions.Up ≠ Directions.Right := by
  decide

/-- C3 (amended): with a waypoint present, equal x-coordinates yield a
vertical direction (`Down` when the waypoint's y exceeds the pursuer's,
otherwise `Up` — including the degenerate equal-x-and-y case, which yields
`Up`, a vertical direction); equal y with differing x yields a horizontal
direction by the sign of the x-difference; and when both coordinates differ
the pursuer gets direction `Nothing` and a path is re-requested (to the
player in Chase mode without empowerment, otherwise a random path). -/
theorem calculate_direction_spec (mode : GhostMoves) (ability : Bool)
    (pos t : Int × Int) :
    (t.1 = pos.1 →
      calculate_direction_to_next_target mode ability pos (some t) =
        (if t.2 - pos.2 > 0 then Directions.Down else Directions.Up,
          PathRequest.noRequest)) ∧
    (t.1 ≠ pos.1 → t.2 = pos.2 →
      calculate_direction_to_next_target mode ability pos (some t) =
        (if t.1 - pos.1 < 0 then Directions.Left else Directions.Right,
          PathRequest.noRequest)) ∧
    (t.1 ≠ pos.1 → t.2 ≠ pos.2 →
      calculate_direction_to_next_target mode ability pos (some t) =
        (Directions.Nothing,
          if mode = GhostMoves.Chase ∧ ability = false then PathRequest.toPlayer
          else PathRequest.randomPath)) := by
  refine ⟨fun h1 => ?_, fun h1 h2 => ?_, fun h1 h2 => ?_⟩
  · simp [calculate_direction_to_next_target, sub_eq_zero_of_eq h1]
  · have hx : ¬ t.1 - pos.1 = 0 := sub_ne_zero_of_ne h1
    simp [calculate_direction_to_next_target, hx, sub_eq_zero_of_eq h2]
  · have hx : ¬ t.1 - pos.1 = 0 := sub_ne_zero_of_ne h1
    have hy : ¬ t.2 - pos.2 = 0 := sub_ne_zero_of_ne h2
    simp [calculate_direction_to_next_target, hx, hy]

/-- C3 witness: the theorem applied at a concrete ghost position `(0, 0)`
with waypoint `(0, 5)`: equal x and larger waypoint y yields `Down` with no
path request. -/
theorem calculate_direction_spec_down :
    calculate_direction_to_next_target GhostMoves.Chase false (0, 0) (some (0, 5)) =
      (if (5 : Int) - 0 > 0 then Directions.Down else Directions.Up,
        PathRequest.noRequest) := by
  exact (calculate_direction_spec GhostMoves.Chase false (0, 0) (0, 5)).1 rfl

/-- Auxiliary: the wraparound step does not change the mover's size. -/
theorem hero_wrap_size (width : Int) (m : Mover) : (hero_wrap width m).size = m.size := by
  unfold hero_wrap
  dsimp only
  split <;> split <;> rfl

/-- Auxiliary: `Hero.automatic_move` does not change the mover's size. -/
theorem hero_automatic_move_size (walls : List Rect) (m : Mover) (d : Directions) :
    (hero_automatic_move walls m d).size = m.size := by
  unfold hero_automatic_move
  dsimp only
  split <;> rfl

/-- C2: counterexample to the claim that a pursuer's desired step into a
wall is rejected.  A ghost at `(32, 32)` (not overlapping the wall at
`(32, 0)`) with direction `Up` has its step applied unconditionally by
`Ghost.automatic_move` and ends the move overlapping that wall. -/
theorem ghost_step_into_wall :
    wall_collision [⟨32, 0, 32, 32⟩] 32 (32, 32) = false ∧
    wall_collision [⟨32, 0, 32, 32⟩] 32 (32, 31) = true ∧
    ghost_automatic_move ⟨32, 32, 32, Directions.Up, Directions.Up, Directions.Up⟩
        Directions.Up =
      ⟨32, 31, 32, Directions.Up, Directions.Up, Directions.Up⟩ := by
  decide

/-- C2 (amended): the player's movement resolution of one tick never leaves
the player's bounding box overlapping a wall, provided it did not already
overlap one after the wraparound step: colliding steps are rejected by
`Hero.automatic_move` and a final rollback restores the recorded
non-colliding position.  (Pursuer steps, by contrast, are applied
unconditionally without any wall check — see the counterexample.) -/
theorem hero_tick_no_wall_overlap (walls : List Rect) (width : Int) (m : Mover)
    (h : wall_collision walls m.size
      ((hero_wrap width m).x, (hero_wrap width m).y) = false) :
    wall_collision walls m.size
      ((hero_move_tick walls width m).x, (hero_move_tick walls width m).y) = false := by
  unfold hero_move_tick
  dsimp only
  split
  · -- blocked buffer: moved by the current direction
    split
    · exact h
    · next hfc =>
      rw [Bool.not_eq_true] at hfc
      rw [hero_automatic_move_size, hero_wrap_size] at hfc
      exact hfc
  · -- free buffer: moved by the buffered direction
    split
    · exact h
    · next hfc =>
      rw [Bool.not_eq_true] at hfc
      have hsz : (hero_automatic_move walls (hero_wrap width m)
          (hero_wrap width m).direction_buffer).size = m.size := by
        rw [hero_automatic_move_size, hero_wrap_size]
      simp only [hsz] at hfc
      exact hfc

/-- C2 witness: the theorem applied to a concrete player at `(32, 32)` next
to a wall at `(64, 0)`: after the tick the player does not overlap the
wall. -/
theorem hero_tick_no_wall_overlap_concrete :
    wall_collision [⟨64, 0, 32, 32⟩] 32
      ((hero_move_tick [⟨64, 0, 32, 32⟩] 896
          ⟨32, 32, 32, Directions.Right, Directions.Right, Directions.Right⟩).x,
        (hero_move_tick [⟨64, 0, 32, 32⟩] 896
          ⟨32, 32, 32, Directions.Right, Directions.Right, Directions.Right⟩).y) = false := by
  exact hero_tick_no_wall_overlap [⟨64, 0, 32, 32⟩] 896
    ⟨32, 32, 32, Directions.Right, Directions.Right, Directions.Right⟩ (by decide)

/-- C4: when the hero's bounding box overlaps the single active pursuer of a
tick: with the special ability active the pursuer is removed from the
game-object list and 400 points are added, lives and hero untouched; with
the ability inactive and the game not won, one life is decremented and the
hero is reset to the spawn position `(32, 32)` with direction `Nothing`,
and the hero is removed from play exactly when the decremented lives
counter reaches zero. -/
theorem handle_ghosts_single_overlap (hr : Rect) (s : GState) (g : Obj)
    (hg : s.ghosts = [g])
    (hcol : colliderect hr (get_shape g) = true)
    (hmem : g.oid ∈ s.gameObjects) :
    (s.specialAbilityActive = true →
      handle_ghosts hr s = Except.ok
        { s with gameObjects := s.gameObjects.erase g.oid, score := s.score + 400 }) ∧
    (∀ hh : HeroObj, s.specialAbilityActive = false → s.wonGame = false →
      s.hero = some hh →
      (¬ s.lives - 1 = 0 →
        handle_ghosts hr s = Except.ok
          { s with lives := s.lives - 1,
                   hero := some { hh with x := 32, y := 32, dir := Directions.Nothing } }) ∧
      (s.lives - 1 = 0 →
        handle_ghosts hr s = Except.ok
          { s with lives := s.lives - 1,
                   gameObjects := s.gameObjects.erase hh.oid,
                   hero := none })) := by
  constructor
  · intro hab
    simp [handle_ghosts, handle_ghosts_go, hg, hcol, hmem, hab]
  · intro hh hab hwon hhero
    constructor <;> intro hl
    · simp [handle_ghosts, handle_ghosts_go, hg, hcol, hmem, hab, hwon,
        kill_pacman, hhero, hl]
    · simp [handle_ghosts, handle_ghosts_go, hg, hcol, hmem, hab, hwon,
        kill_pacman, end_game, hhero, hl]

/-- C4 witness: a concrete non-empowered hero with 2 lives overlapping one
ghost loses a life and returns to the spawn cell with neutral direction. -/
theorem handle_ghosts_single_overlap_at :
    handle_ghosts ⟨100, 100, 32, 32⟩
      { lives := 2, score := 0, specialAbilityActive := false, wonGame := false,
        currMode := GhostMoves.Chase, abilityTimerMs := 0,
        gameObjects := [1, 2], cookies := [], powerups := [],
        ghosts := [⟨2, 100, 100, 32⟩],
        hero := some ⟨1, 100, 100, 32, Directions.Right⟩ } = Except.ok
      { lives := 1, score := 0, specialAbilityActive := false, wonGame := false,
        currMode := GhostMoves.Chase, abilityTimerMs := 0,
        gameObjects := [1, 2], cookies := [], powerups := [],
        ghosts := [⟨2, 100, 100, 32⟩],
        hero := some ⟨1, 32, 32, 32, Directions.Nothing⟩ } := by
  exact ((handle_ghosts_single_overlap ⟨100, 100, 32, 32⟩
    { lives := 2, score := 0, specialAbilityActive := false, wonGame := false,
      currMode := GhostMoves.Chase, abilityTimerMs := 0,
      gameObjects := [1, 2], cookies := [], powerups := [],
      ghosts := [⟨2, 100, 100, 32⟩],
      hero := some ⟨1, 100, 100, 32, Directions.Right⟩ } ⟨2, 100, 100, 32⟩
    rfl (by decide) (by decide)).2 ⟨1, 100, 100, 32, Directions.Right⟩
    rfl rfl rfl).1 (by decide)

/-- The failing input of C10: a hero with one remaining life whose bounding
box overlaps two non-empowered pursuers in the same tick. -/
def c10_state : GState :=
  { lives := 1, score := 0, specialAbilityActive := false, wonGame := false,
    currMode := GhostMoves.Chase, abilityTimerMs := 0,
    gameObjects := [1, 2, 3], cookies := [], powerups := [],
    ghosts := [⟨2, 100, 100, 32⟩, ⟨3, 110, 100, 32⟩],
    hero := some ⟨1, 100, 100, 32, Directions.Right⟩ }

/-- C10: evaluation of `Hero.handle_ghosts` at the failing input.  The first
overlapping ghost drops the last life and removes the hero from play; the
loop then processes the second overlapping ghost and invokes `kill_pacman`
again: the lives counter is decremented to -1 and the position reset
dereferences the cleared hero reference, raising `AttributeError`
(`Except.error`, payload = state at the crash). -/
theorem handle_ghosts_double_overlap_crash :
    handle_ghosts ⟨100, 100, 32, 32⟩ c10_state = Except.error
      { lives := -1, score := 0, specialAbilityActive := false, wonGame := false,
        currMode := GhostMoves.Chase, abilityTimerMs := 0,
        gameObjects := [2, 3], cookies := [], powerups := [],
        ghosts := [⟨2, 100, 100, 32⟩, ⟨3, 110, 100, 32⟩],
        hero := none } := by
  rfl

/-- C5: when the hero's bounding box overlaps the session's power
collectible (and its one cookie does not collide): with empowerment not yet
active the powerup is removed from the game-object list, 50 points are
added, the ability flag becomes true, the global mode switches to Scatter
and the 15000 ms expiry timer is started; with empowerment already active
the whole state is left untouched. -/
theorem handle_cookies_powerup_pickup (r : Rect) (s : GState) (p c : Obj)
    (hps : s.powerups = [p]) (hcs : s.cookies = [c])
    (hcc : colliderect r (get_shape c) = false)
    (hpc : colliderect r (get_shape p) = true)
    (hmem : p.oid ∈ s.gameObjects) :
    (s.specialAbilityActive = false →
      handle_cookies r s =
        { s with gameObjects := s.gameObjects.erase p.oid, score := s.score + 50,
                 specialAbilityActive := true, currMode := GhostMoves.Scatter,
                 abilityTimerMs := 15000 }) ∧
    (s.specialAbilityActive = true → handle_cookies r s = s) := by
  constructor <;> intro hab
  · simp [handle_cookies, cookie_loop, powerup_loop, hps, hcs, hcc, hpc, hmem, hab]
  · simp [handle_cookies, cookie_loop, powerup_loop, hps, hcs, hcc, hpc, hmem, hab]
    rw [← hab, ← hcs, ← hps]

/-- C5 witness: a concrete non-empowered hero over the powerup consumes it:
+50 points, ability on, mode Scatter, 15 s timer armed. -/
theorem handle_cookies_powerup_pickup_at :
    handle_cookies ⟨0, 0, 32, 32⟩
      { lives := 3, score := 0, specialAbilityActive := false, wonGame := false,
        currMode := GhostMoves.Chase, abilityTimerMs := 0,
        gameObjects := [7, 8], cookies := [⟨8, 500, 500, 4⟩],
        powerups := [⟨7, 10, 10, 6⟩], ghosts := [], hero := none } =
      { lives := 3, score := 0 + 50, specialAbilityActive := true, wonGame := false,
        currMode := GhostMoves.Scatter, abilityTimerMs := 15000,
        gameObjects := List.erase [7, 8] 7, cookies := [⟨8, 500, 500, 4⟩],
        powerups := [⟨7, 10, 10, 6⟩], ghosts := [], hero := none } := by
  exact (handle_cookies_powerup_pickup ⟨0, 0, 32, 32⟩
    { lives := 3, score := 0, specialAbilityActive := false, wonGame := false,
      currMode := GhostMoves.Chase, abilityTimerMs := 0,
      gameObjects := [7, 8], cookies := [⟨8, 500, 500, 4⟩],
      powerups := [⟨7, 10, 10, 6⟩], ghosts := [], hero := none }
    ⟨7, 10, 10, 6⟩ ⟨8, 500, 500, 4⟩ rfl rfl (by decide) (by decide) (by decide)).1 rfl

/-- Auxiliary: the cookie loop only ever removes ids from the game-object
list. -/
theorem cookie_loop_go_mono (r : Rect) (cs : List Obj) (a : CAcc) (x : Nat)
    (hx : x ∈ (cookie_loop r cs a).go) : x ∈ a.go := by
  induction cs generalizing a with
  | nil => exact hx
  | cons c rest ih =>
    simp only [cookie_loop] at hx
    split at hx
    · exact List.mem_of_mem_erase (ih _ hx)
    · exact ih _ hx

/-- Auxiliary: the cookie loop preserves distinctness of the game-object
list. -/
theorem cookie_loop_go_nodup (r : Rect) (cs : List Obj) (a : CAcc)
    (h : a.go.Nodup) : (cookie_loop r cs a).go.Nodup := by
  induction cs generalizing a with
  | nil => exact h
  | cons c rest ih =>
    simp only [cookie_loop]
    split
    · exact ih _ (List.Nodup.erase _ h)
    · exact ih _ h

/-- Auxiliary: after the cookie loop, no colliding cookie of the traversed
list is left in the game-object list. -/
theorem cookie_loop_consumed (r : Rect) (cs : List Obj) (a : CAcc)
    (hnd : a.go.Nodup) :
    ∀ c ∈ cs, colliderect r (get_shape c) = true →
      c.oid ∉ (cookie_loop r cs a).go := by
  induction cs generalizing a with
  | nil => intro c hc; exact absurd hc (List.not_mem_nil c)
  | cons c0 rest ih =>
    intro c hc hcol
    simp only [cookie_loop]
    by_cases hcond : colliderect r (get_shape c0) = true ∧ c0.oid ∈ a.go
    · rw [if_pos hcond]
      rcases List.mem_cons.mp hc with hceq | hcrest
      · subst hceq
        intro hmem
        have hin : c.oid ∈ a.go.erase c.oid := cookie_loop_go_mono r rest _ _ hmem
        exact ((List.Nodup.mem_erase_iff hnd).mp hin).1 rfl
      · exact ih _ (List.Nodup.erase _ hnd) c hcrest hcol
    · rw [if_neg hcond]
      rcases List.mem_cons.mp hc with hceq | hcrest
      · subst hceq
        intro hmem
        exact hcond ⟨hcol, cookie_loop_go_mono r rest a _ hmem⟩
      · exact ih a hnd c hcrest hcol

/-- Auxiliary: when every colliding cookie of the traversed list is already
absent from the game-object list, the cookie loop is the identity. -/
theorem cookie_loop_id (r : Rect) (cs : List Obj) (a : CAcc)
    (h : ∀ c ∈ cs, colliderect r (get_shape c) = true → c.oid ∉ a.go) :
    cookie_loop r cs a = a := by
  induction cs with
  | nil => rfl
  | cons c0 rest ih =>
    simp only [cookie_loop]
    have hcond : ¬(colliderect r (get_shape c0) = true ∧ c0.oid ∈ a.go) := by
      rintro ⟨h1, h2⟩
      exact h c0 (List.mem_cons_self c0 rest) h1 h2
    rw [if_neg hcond]
    exact ih fun c hc => h c (List.mem_cons_of_mem c0 hc)

/-- Auxiliary: the powerup loop only ever removes ids from the game-object
list. -/
theorem powerup_loop_go_mono (r : Rect) (ps : List Obj) (a : PAcc) (x : Nat)
    (hx : x ∈ (powerup_loop r ps a).go) : x ∈ a.go := by
  induction ps generalizing a with
  | nil => exact hx
  | cons p rest ih =>
    simp only [powerup_loop] at hx
    split at hx
    · split at hx
      · exact ih _ hx
      · exact List.mem_of_mem_erase (ih _ hx)
    · exact ih _ hx

/-- Auxiliary: once the special-ability flag is set, the powerup loop never
clears it. -/
theorem powerup_loop_ab_mono (r : Rect) (ps : List Obj) (a : PAcc)
    (h : a.ab = true) : (powerup_loop r ps a).ab = true := by
  induction ps generalizing a with
  | nil => exact h
  | cons p rest ih =>
    simp only [powerup_loop]
    by_cases hc : colliderect r (get_shape p) = true ∧ p.oid ∈ a.go
    · rw [if_pos hc, if_pos h]
      exact ih _ h
    · rw [if_neg hc]
      exact ih _ h

/-- Auxiliary: a colliding powerup that survives the powerup loop in the
game-object list forces the resulting special-ability flag to be set. -/
theorem powerup_loop_key (r : Rect) (ps : List Obj) (a : PAcc) :
    ∀ p ∈ ps, colliderect r (get_shape p) = true →
      p.oid ∈ (powerup_loop r ps a).go → (powerup_loop r ps a).ab = true := by
  induction ps generalizing a with
  | nil => intro p hp; exact absurd hp (List.not_mem_nil p)
  | cons p0 rest ih =>
    intro p hp hcol hmem
    simp only [powerup_loop] at hmem ⊢
    by_cases hc : colliderect r (get_shape p0) = true ∧ p0.oid ∈ a.go
    · rw [if_pos hc] at hmem ⊢
      by_cases hab : a.ab = true
      · rw [if_pos hab] at hmem ⊢
        exact powerup_loop_ab_mono r rest a hab
      · rw [if_neg hab] at hmem ⊢
        exact powerup_loop_ab_mono r rest _ rfl
    · rw [if_neg hc] at hmem ⊢
      rcases List.mem_cons.mp hp with hpeq | hprest
      · subst hpeq
        exact absurd ⟨hcol, powerup_loop_go_mono r rest a _ hmem⟩ hc
      · exact ih a p hprest hcol hmem

/-- Auxiliary: when every colliding powerup still in the game-object list
implies the special ability is already active, the powerup loop is the
identity. -/
theorem powerup_loop_id (r : Rect) (ps : List Obj) (a : PAcc)
    (h : ∀ p ∈ ps, colliderect r (get_shape p) = true → p.oid ∈ a.go → a.ab = true) :
    powerup_loop r ps a = a := by
  induction ps with
  | nil => rfl
  | cons p0 rest ih =>
    simp only [powerup_loop]
    by_cases hc : colliderect r (get_shape p0) = true ∧ p0.oid ∈ a.go
    · rw [if_pos hc, if_pos (h p0 (List.mem_cons_self p0 rest) hc.1 hc.2)]
      exact ih fun p hp => h p (List.mem_cons_of_mem p0 hp)
    · rw [if_neg hc]
      exact ih fun p hp => h p (List.mem_cons_of_mem p0 hp)

/-- Auxiliary: a cookie listed after `Hero.handle_cookies` was listed
before. -/
theorem handle_cookies_cookies_sub (r : Rect) (s : GState) (c : Obj)
    (hc : c ∈ (handle_cookies r s).cookies) : c ∈ s.cookies := by
  unfold handle_cookies at hc
  dsimp only at hc
  rcases hctr : (cookie_loop r s.cookies ⟨s.gameObjects, s.score, none⟩).ctr with _ | c0
  · rw [hctr] at hc
    exact hc
  · rw [hctr] at hc
    exact List.mem_of_mem_erase hc

/-- Auxiliary: a state in which every colliding cookie is already consumed
and every colliding powerup still present implies active empowerment is a
fixed point of `Hero.handle_cookies` up to the win-flag recomputation. -/
theorem handle_cookies_stable (r : Rect) (s : GState)
    (hb : ∀ c ∈ s.cookies, colliderect r (get_shape c) = true →
      c.oid ∉ s.gameObjects)
    (hp : ∀ p ∈ s.powerups, colliderect r (get_shape p) = true →
      p.oid ∈ s.gameObjects → s.specialAbilityActive = true) :
    handle_cookies r s = { s with wonGame := s.wonGame || s.cookies.isEmpty } := by
  unfold handle_cookies
  rw [cookie_loop_id r s.cookies ⟨s.gameObjects, s.score, none⟩ hb]
  dsimp only
  rw [powerup_loop_id r s.powerups
    ⟨s.gameObjects, s.score, s.specialAbilityActive, s.currMode, s.abilityTimerMs⟩ hp]

/-- C6: `Hero.handle_cookies` is idempotent on any state whose game-object
list holds distinct objects: a collectible consumed by one tick is absent
from the game-object list in the next, so a second run with the same hero
bounding box destroys nothing, adds no score, and changes no flag — an
already-destroyed collectible can neither be destroyed again nor add its
score value twice while overlap persists. -/
theorem handle_cookies_idempotent (r : Rect) (s : GState)
    (hnd : s.gameObjects.Nodup) :
    handle_cookies r (handle_cookies r s) = handle_cookies r s := by
  have hgo : (handle_cookies r s).gameObjects =
      (powerup_loop r s.powerups
        ⟨(cookie_loop r s.cookies ⟨s.gameObjects, s.score, none⟩).go,
          (cookie_loop r s.cookies ⟨s.gameObjects, s.score, none⟩).sc,
          s.specialAbilityActive, s.currMode, s.abilityTimerMs⟩).go := rfl
  have hab : (handle_cookies r s).specialAbilityActive =
      (powerup_loop r s.powerups
        ⟨(cookie_loop r s.cookies ⟨s.gameObjects, s.score, none⟩).go,
          (cookie_loop r s.cookies ⟨s.gameObjects, s.score, none⟩).sc,
          s.specialAbilityActive, s.currMode, s.abilityTimerMs⟩).ab := rfl
  have hb : ∀ c ∈ (handle_cookies r s).cookies,
      colliderect r (get_shape c) = true →
        c.oid ∉ (handle_cookies r s).gameObjects := by
    intro c hc hcol
    have hc0 : c ∈ s.cookies := handle_cookies_cookies_sub r s c hc
    have h1 : c.oid ∉ (cookie_loop r s.cookies ⟨s.gameObjects, s.score, none⟩).go :=
      cookie_loop_consumed r s.cookies ⟨s.gameObjects, s.score, none⟩ hnd c hc0 hcol
    rw [hgo]
    intro hmem
    exact h1 (powerup_loop_go_mono r s.powerups _ _ hmem)
  have hp : ∀ p ∈ (handle_cookies r s).powerups,
      colliderect r (get_shape p) = true →
        p.oid ∈ (handle_cookies r s).gameObjects →
          (handle_cookies r s).specialAbilityActive = true := by
    intro p hp0 hcol hmem
    rw [hab]
    rw [hgo] at hmem
    exact powerup_loop_key r s.powerups _ p hp0 hcol hmem
  have hwon : ((handle_cookies r s).wonGame ||
      (handle_cookies r s).cookies.isEmpty) = (handle_cookies r s).wonGame := by
    have h1 : (handle_cookies r s).wonGame =
        (s.wonGame || (handle_cookies r s).cookies.isEmpty) := rfl
    rw [h1, Bool.or_assoc, Bool.or_self]
  calc handle_cookies r (handle_cookies r s)
      = { handle_cookies r s with
            wonGame := (handle_cookies r s).wonGame ||
              (handle_cookies r s).cookies.isEmpty } :=
        handle_cookies_stable r (handle_cookies r s) hb hp
    _ = handle_cookies r s := by rw [hwon]

/-- C6 witness: the theorem applied to a concrete state with two cookies
under the hero: consuming them once is the same as consuming them twice. -/
theorem handle_cookies_idempotent_at :
    handle_cookies ⟨0, 0, 32, 32⟩ (handle_cookies ⟨0, 0, 32, 32⟩
      { lives := 3, score := 0, specialAbilityActive := false, wonGame := false,
        currMode := GhostMoves.Chase, abilityTimerMs := 0,
        gameObjects := [20, 21], cookies := [⟨20, 8, 8, 4⟩, ⟨21, 20, 8, 4⟩],
        powerups := [], ghosts := [], hero := none }) =
    handle_cookies ⟨0, 0, 32, 32⟩
      { lives := 3, score := 0, specialAbilityActive := false, wonGame := false,
        currMode := GhostMoves.Chase, abilityTimerMs := 0,
        gameObjects := [20, 21], cookies := [⟨20, 8, 8, 4⟩, ⟨21, 20, 8, 4⟩],
        powerups := [], ghosts := [], hero := none } := by
  exact handle_cookies_idempotent ⟨0, 0, 32, 32⟩
    { lives := 3, score := 0, specialAbilityActive := false, wonGame := false,
      currMode := GhostMoves.Chase, abilityTimerMs := 0,
      gameObjects := [20, 21], cookies := [⟨20, 8, 8, 4⟩, ⟨21, 20, 8, 4⟩],
      powerups := [], ghosts := [], hero := none } (by decide)

/-- Auxiliary: erasing one element shortens a list by at most one. -/
theorem length_le_length_erase_succ (l : List Obj) (a : Obj) :
    l.length ≤ (l.erase a).length + 1 := by
  induction l with
  | nil => simp
  | cons b t ih =>
    rw [List.erase_cons]
    by_cases hba : b = a
    · simp [hba]
    · have : (b == a) = false := by simp [hba]
      simp only [this, Bool.false_eq_true, if_false, List.length_cons]
      omega

/-- The concrete multi-cookie scenario of C8: the hero bounding box at the
origin overlaps both listed cookies, both still in the game-object list. -/
def c8_state : GState :=
  { lives := 3, score := 0, specialAbilityActive := false, wonGame := false,
    currMode := GhostMoves.Chase, abilityTimerMs := 0,
    gameObjects := [10, 11], cookies := [⟨10, 8, 8, 4⟩, ⟨11, 20, 8, 4⟩],
    powerups := [], ghosts := [], hero := none }

/-- C8: in one run of `Hero.handle_cookies` the cookie list loses at most
one cookie (the `cookie_to_remove` local holds only the last one), while
every colliding cookie still in the game-object list is removed from the
game-object list and scored; consequently, after a tick overlapping two
cookies the cookie list is non-empty and the win flag unset although every
remaining listed cookie is already consumed (absent from the game-object
list) and its 10 points banked. -/
theorem handle_cookies_multi_cookie :
    (∀ (r : Rect) (s : GState),
      s.cookies.length ≤ (handle_cookies r s).cookies.length + 1) ∧
    (∀ (r : Rect) (s : GState), s.gameObjects.Nodup → ∀ c ∈ s.cookies,
      colliderect r (get_shape c) = true →
        c.oid ∉ (handle_cookies r s).gameObjects) ∧
    (handle_cookies ⟨0, 0, 32, 32⟩ c8_state =
      { lives := 3, score := 0 + 10 + 10, specialAbilityActive := false,
        wonGame := false, currMode := GhostMoves.Chase, abilityTimerMs := 0,
        gameObjects := [], cookies := [⟨10, 8, 8, 4⟩],
        powerups := [], ghosts := [], hero := none } ∧
      (handle_cookies ⟨0, 0, 32, 32⟩ c8_state).cookies ≠ [] ∧
      (handle_cookies ⟨0, 0, 32, 32⟩ c8_state).wonGame = false ∧
      ∀ c ∈ (handle_cookies ⟨0, 0, 32, 32⟩ c8_state).cookies,
        c.oid ∉ (handle_cookies ⟨0, 0, 32, 32⟩ c8_state).gameObjects) := by
  refine ⟨fun r s => ?_, fun r s hnd c hc hcol => ?_, by decide, by decide, by decide, by decide⟩
  · have h : (handle_cookies r s).cookies =
        (match (cookie_loop r s.cookies ⟨s.gameObjects, s.score, none⟩).ctr with
          | some c => s.cookies.erase c
          | none => s.cookies) := rfl
    rw [h]
    rcases (cookie_loop r s.cookies ⟨s.gameObjects, s.score, none⟩).ctr with _ | c
    · exact Nat.le_succ _
    · exact length_le_length_erase_succ s.cookies c
  · have h1 : c.oid ∉ (cookie_loop r s.cookies ⟨s.gameObjects, s.score, none⟩).go :=
      cookie_loop_consumed r s.cookies ⟨s.gameObjects, s.score, none⟩ hnd c hc hcol
    have hgo : (handle_cookies r s).gameObjects =
        (powerup_loop r s.powerups
          ⟨(cookie_loop r s.cookies ⟨s.gameObjects, s.score, none⟩).go,
            (cookie_loop r s.cookies ⟨s.gameObjects, s.score, none⟩).sc,
            s.specialAbilityActive, s.currMode, s.abilityTimerMs⟩).go := rfl
    rw [hgo]
    intro hmem
    exact h1 (powerup_loop_go_mono r s.powerups _ _ hmem)

/-- C8 witness: the second conjunct applied at the concrete scenario: the
first cookie, though still listed after the tick, is gone from the
game-object list. -/
theorem handle_cookies_multi_cookie_at :
    (⟨10, 8, 8, 4⟩ : Obj).oid ∉
      (handle_cookies ⟨0, 0, 32, 32⟩ c8_state).gameObjects := by
  exact handle_cookies_multi_cookie.2.1 ⟨0, 0, 32, 32⟩ c8_state (by decide)
    ⟨10, 8, 8, 4⟩ (by decide) (by decide)

/-- C9: querying the hero position once the hero entity has been removed
from play yields the default `(0, 0)` instead of failing, and a pursue-mode
path request issued afterwards targets exactly the maze cell
`screen_to_maze (0, 0) = (0, 0)`. -/
theorem hero_position_default_after_removal (pf : Pathfinder) (s : GState)
    (gx gy : Int) (h : s.hero = none) :
    get_hero_position s = (0, 0) ∧
    (request_path_to_player pf s gx gy).1.2 = screen_to_maze (0, 0) ∧
    (request_path_to_player pf s gx gy).1.2 = (0, 0) := by
  have h0 : get_hero_position s = (0, 0) := by
    unfold get_hero_position
    rw [h]
  refine ⟨h0, ?_, ?_⟩ <;>
    simp [request_path_to_player, h0, screen_to_maze]

/-- C9 witness: the theorem applied to a concrete heroless state and a ghost
at screen position `(64, 96)`. -/
theorem hero_position_default_after_removal_at :
    get_hero_position
      { lives := 0, score := 0, specialAbilityActive := false, wonGame := false,
        currMode := GhostMoves.Chase, abilityTimerMs := 0,
        gameObjects := [], cookies := [], powerups := [], ghosts := [],
        hero := none } = (0, 0) := by
  exact (hero_position_default_after_removal ⟨[[1]]⟩
    { lives := 0, score := 0, specialAbilityActive := false, wonGame := false,
      currMode := GhostMoves.Chase, abilityTimerMs := 0,
      gameObjects := [], cookies := [], powerups := [], ghosts := [],
      hero := none } 64 96 rfl).1

/-- C7: `Pathfinder.get_path` is deterministic — a query leaves the
pathfinder unchanged, so two successive invocations with the same cost grid
and the same (from, to) cells return identical path sequences. -/
theorem get_path_deterministic (pf : Pathfinder) (from_x from_y to_x to_y : Nat) :
    (Pathfinder.get_path (Pathfinder.get_path pf from_x from_y to_x to_y).2
        from_x from_y to_x to_y).1 =
      (Pathfinder.get_path pf from_x from_y to_x to_y).1 := by
  rfl

end Pacman
